import Mathlib

/-!
Shallow embedding of `src/rust/pam-jwt-issuer/src/main.rs`: the `/auth/token`
pipeline (`issue_token`), the SSH certificate issuance (`issue_ssh_user_cert`)
and the public error mapping (`impl IntoResponse for ApiError`).

External effects (base64 decoding, RSA-OAEP decryption, JSON parsing, the PAM
delegate, the JWT encoder, the OS RNG, the temp-file system and the external
`ssh-keygen` signer) are modelled as oracle fields of an environment record;
the pipeline itself is translated branch for branch from the source.
-/

namespace PamJwtIssuer

/-- Rust `str::trim`: remove whitespace from both ends, modelled structurally
on the character list so that it computes by reduction. -/
def rustTrim (s : String) : String :=
  ⟨((s.data.dropWhile Char.isWhitespace).reverse.dropWhile Char.isWhitespace).reverse⟩

/-- Rust `str::starts_with`. -/
def rustStartsWith (s pre : String) : Bool := pre.data.isPrefixOf s.data

/-- Rust `str::is_empty`. -/
def rustIsEmpty (s : String) : Bool := s.data.isEmpty

/-- Helper of `rustSplitComma`: splits the remaining characters at commas,
accumulating the current segment in reverse. -/
def splitCommaAux : List Char → List Char → List String
  | [], acc => [⟨acc.reverse⟩]
  | c :: cs, acc =>
    if c = ',' then ⟨acc.reverse⟩ :: splitCommaAux cs []
    else splitCommaAux cs (c :: acc)

/-- Rust `str::split(',')` collected into a vector; on the empty string this
yields `[""]`, exactly as in Rust. -/
def rustSplitComma (s : String) : List String := splitCommaAux s.data []

/-- `enum ApiError` (main.rs lines 87-95). -/
inductive ApiError where
  | BadRequest (m : String)
  | AuthFailed
  | Internal (m : String)
deriving DecidableEq, Repr

/-- `struct ErrorMessage { error: String }` (main.rs lines 72-75). -/
structure ErrorMessage where
  error : String
deriving DecidableEq, Repr

/-- `struct TokenResponse` (main.rs lines 62-69). -/
structure TokenResponse where
  access_token : String
  token_type : String
  expires_in : Int
  ssh_user_cert : Option String
  ssh_user_cert_exp : Option Int
deriving DecidableEq, Repr

/-- The JSON body of an HTTP response from the handler: either the error
envelope or the token response. -/
inductive Body where
  | errBody (e : ErrorMessage)
  | okBody (t : TokenResponse)
deriving DecidableEq, Repr

/-- `impl IntoResponse for ApiError` (main.rs lines 97-113): status code and
JSON body. `BadRequest(m)` keeps its message, `AuthFailed` and `Internal`
are replaced by fixed generic messages. -/
def ApiError.into_response : ApiError → Nat × Body
  | .BadRequest m => (400, .errBody ⟨m⟩)
  | .AuthFailed => (401, .errBody ⟨"authentication failed"⟩)
  | .Internal _ => (500, .errBody ⟨"internal error"⟩)

/-- The HTTP outcome of the handler: an `Err` goes through
`ApiError.into_response`, an `Ok` is `(StatusCode::OK, Json(TokenResponse))`
(main.rs lines 390-399). -/
def respond : Except ApiError TokenResponse → Nat × Body
  | .error e => e.into_response
  | .ok t => (200, .okBody t)

/-- `struct Claims` (main.rs lines 78-84): the JWT claims set, with the
Slurm-mandated subject field literally named `sun`. -/
structure Claims where
  sun : String
  iat : Int
  exp : Int
deriving DecidableEq, Repr

/-- `struct AuthPayload` (main.rs lines 53-59): the decrypted plaintext. -/
structure AuthPayload where
  username : String
  password : String
  ts : Int
  ssh_pubkey : Option String
deriving DecidableEq, Repr

/-- The part of `struct AppState` (main.rs lines 33-44) the pipeline branches
on; the two key handles live in the oracle environment instead. -/
structure AppState where
  jwt_exp_minutes : Int
  pam_service : String
  max_payload_age_secs : Int
deriving DecidableEq, Repr

/-- 2 ^ 64, the modulus of Rust `u64` arithmetic. -/
def u64Mod : Nat := 2 ^ 64

/-- Rust `u64::wrapping_add` on values below `u64Mod`. -/
def wrappingAdd64 (a b : Nat) : Nat := (a % u64Mod + b % u64Mod) % u64Mod

/-- The argument vector handed to the external `ssh-keygen` invocation
(main.rs lines 165-182), plus the content written into the temporary
public-key file it is pointed at. -/
structure SignerCall where
  ca_key_path : String
  key_id : String
  principal : String
  valid_after : Int
  valid_before : Int
  serial : Nat
  extensions : List String
  pub_path : String
  pub_file_content : String
deriving DecidableEq, Repr

/-- Oracle outcomes for one `issue_ssh_user_cert` run: the unique temp-file
name picked by `NamedTempFile`, success/failure of each fallible external
step, the text of the certificate artifact, and the 8 random bytes from
`OsRng` read as a `u64`. -/
structure CertEnv where
  tmp_name : String
  tmp_create_ok : Bool
  tmp_write_ok : Bool
  spawn_ok : Bool
  exit_ok : Bool
  read_ok : Bool
  cert_file_text : String
  rnd : Nat
deriving DecidableEq, Repr

/-- Result of `issue_ssh_user_cert` together with its observable footprint:
the files of the scratch directory still existing after the function (and the
`NamedTempFile` drop) returned, and the signer invocation if one was made. -/
structure CertResult where
  result : Except ApiError String
  leftover_files : List String
  invoked : Option SignerCall
deriving Repr

/-- `issue_ssh_user_cert` (main.rs lines 128-196). The temporary public-key
file is a `NamedTempFile`: it is deleted when the value is dropped, i.e. on
every return path after successful creation. The signer, when it exits
successfully, writes the sibling artifact `{pub_path}-cert.pub`
(main.rs lines 146-149); no code path removes that artifact. -/
def issue_ssh_user_cert (fsEnv : CertEnv) (ca_key_path : String) (principal : String)
    (valid_after valid_before : Int) (ssh_pubkey : String) (extensions : List String)
    (serial_base : Nat) : CertResult :=
  if fsEnv.tmp_create_ok = false then
    { result := .error (.Internal "tmpfile"), leftover_files := [], invoked := none }
  else
    let pub_path := fsEnv.tmp_name
    let cert_path := pub_path ++ "-cert.pub"
    if fsEnv.tmp_write_ok = false then
      { result := .error (.Internal "tmp write"), leftover_files := [], invoked := none }
    else
      let serial := wrappingAdd64 serial_base fsEnv.rnd
      let key_id := "pam-jwt-issuer:" ++ principal ++ ":" ++ toString valid_after
      let call : SignerCall :=
        { ca_key_path := ca_key_path, key_id := key_id, principal := principal,
          valid_after := valid_after, valid_before := valid_before, serial := serial,
          extensions := extensions.filter (fun e => rustIsEmpty e = false),
          pub_path := pub_path, pub_file_content := ssh_pubkey }
      if fsEnv.spawn_ok = false then
        { result := .error (.Internal "ssh-keygen spawn"), leftover_files := [],
          invoked := some call }
      else if fsEnv.exit_ok = false then
        { result := .error (.Internal "ssh-keygen failed"), leftover_files := [],
          invoked := some call }
      else if fsEnv.read_ok = false then
        { result := .error (.Internal "read cert"), leftover_files := [cert_path],
          invoked := some call }
      else
        { result := .ok (rustTrim fsEnv.cert_file_text), leftover_files := [cert_path],
          invoked := some call }

/-- The oracle environment of one `issue_token` request: transport crypto,
clock, PAM delegate, JWT encoder, and the certificate-issuance configuration
read from the process environment (main.rs lines 358-368). -/
structure Env where
  b64_decode : String → Option (List Nat)
  rsa_decrypt : List Nat → Option (List Nat)
  parse_payload : List Nat → Option AuthPayload
  now : Int
  pam_init_ok : Bool
  pam_auth : String → String → Bool
  jwt_encode : Claims → Option String
  decode_header_ok : Bool
  ssh_ca_key_path : String
  ssh_cert_ext_env : String
  ssh_cert_serial_base : Nat
  certEnv : CertEnv

/-- Result of `issue_token` with its observable trace: the claims record
passed to the JWT encoder, the signer invocation if any, and the files left
behind in the scratch directory. -/
structure IssueResult where
  response : Except ApiError TokenResponse
  minted_claims : Option Claims
  cert_call : Option SignerCall
  leftover_files : List String

/-- An early-return error raised before any claims were minted and before the
certificate stage. -/
def errResult (e : ApiError) : IssueResult :=
  { response := .error e, minted_claims := none, cert_call := none, leftover_files := [] }

/-- `issue_token` (main.rs lines 288-400), branch for branch:
base64 decode → RSA-OAEP decrypt → JSON parse → required-fields check
(trimmed username, untrimmed password) → replay-window check → PAM init →
PAM authenticate → mint claims and encode JWT → header re-decode check →
optional SSH certificate issuance (failure logged, never fatal). -/
def issue_token (st : AppState) (env : Env) (ciphertext_b64 : String) : IssueResult :=
  match env.b64_decode ciphertext_b64 with
  | none => errResult (.BadRequest "invalid base64")
  | some ciphertext =>
    match env.rsa_decrypt ciphertext with
    | none => errResult (.BadRequest "invalid ciphertext")
    | some plaintext =>
      match env.parse_payload plaintext with
      | none => errResult (.BadRequest "invalid decrypted json")
      | some payload =>
        let username := rustTrim payload.username
        if rustIsEmpty username || rustIsEmpty payload.password then
          errResult (.BadRequest "username and password are required")
        else
          let age := env.now - payload.ts
          if age < 0 ∨ age > st.max_payload_age_secs then
            errResult (.BadRequest "stale or future timestamp")
          else if env.pam_init_ok = false then
            errResult (.Internal "pam init")
          else if env.pam_auth username payload.password = false then
            errResult .AuthFailed
          else
            let exp := env.now + 60 * st.jwt_exp_minutes
            let claims : Claims := { sun := username, iat := env.now, exp := exp }
            match env.jwt_encode claims with
            | none =>
              { response := .error (.Internal "jwt encode"),
                minted_claims := some claims, cert_call := none, leftover_files := [] }
            | some token =>
              if env.decode_header_ok = false then
                { response := .error (.Internal "decode header"),
                  minted_claims := some claims, cert_call := none, leftover_files := [] }
              else
                match payload.ssh_pubkey with
                | none =>
                  { response := .ok
                      { access_token := token, token_type := "Bearer",
                        expires_in := st.jwt_exp_minutes * 60,
                        ssh_user_cert := none, ssh_user_cert_exp := none },
                    minted_claims := some claims, cert_call := none, leftover_files := [] }
                | some ssh_pub =>
                  let looks_like_ssh_pub := rustStartsWith ssh_pub "ssh-ed25519 "
                      || rustStartsWith ssh_pub "ssh-rsa " || rustStartsWith ssh_pub "sk-"
                  if looks_like_ssh_pub = false then
                    { response := .error (.BadRequest "invalid ssh_pubkey"),
                      minted_claims := some claims, cert_call := none, leftover_files := [] }
                  else
                    let extensions := ((rustSplitComma env.ssh_cert_ext_env).map
                        rustTrim).filter (fun s => rustIsEmpty s = false)
                    let cr := issue_ssh_user_cert env.certEnv env.ssh_ca_key_path username
                        env.now exp ssh_pub extensions env.ssh_cert_serial_base
                    match cr.result with
                    | .ok cert_txt =>
                      { response := .ok
                          { access_token := token, token_type := "Bearer",
                            expires_in := st.jwt_exp_minutes * 60,
                            ssh_user_cert := some cert_txt,
                            ssh_user_cert_exp := some exp },
                        minted_claims := some claims, cert_call := cr.invoked,
                        leftover_files := cr.leftover_files }
                    | .error _ =>
                      { response := .ok
                          { access_token := token, token_type := "Bearer",
                            expires_in := st.jwt_exp_minutes * 60,
                            ssh_user_cert := none, ssh_user_cert_exp := none },
                        minted_claims := some claims, cert_call := cr.invoked,
                        leftover_files := cr.leftover_files }

/-! Concrete fixtures used by witnesses and counterexamples. -/

/-- A decrypted payload with untrimmed username and fresh timestamp. -/
def payload0 : AuthPayload :=
  { username := " alice ", password := "pw", ts := 100, ssh_pubkey := none }

/-- A certificate-issuance environment in which every external step succeeds. -/
def certEnvOk : CertEnv :=
  { tmp_name := "/tmp/.tmpAAAA", tmp_create_ok := true, tmp_write_ok := true,
    spawn_ok := true, exit_ok := true, read_ok := true,
    cert_file_text := "ssh-ed25519-cert-v01 AAAA\n", rnd := 7 }

/-- A request environment whose payload carries a well-prefixed SSH key. -/
def payloadCert : AuthPayload :=
  { payload0 with ssh_pubkey := some "ssh-ed25519 AAAA" }

/-- The token response produced on the all-success path with certificate. -/
def tokRespCert : TokenResponse :=
  { access_token := "token0", token_type := "Bearer", expires_in := 3600,
    ssh_user_cert := some "ssh-ed25519-cert-v01 AAAA", ssh_user_cert_exp := some 3700 }

/-- The token response produced on the all-success path without SSH key. -/
def tokResp0 : TokenResponse :=
  { access_token := "token0", token_type := "Bearer", expires_in := 3600,
    ssh_user_cert := none, ssh_user_cert_exp := none }

/-- A payload whose SSH key has an unrecognized type prefix. -/
def payloadBadKey : AuthPayload :=
  { payload0 with ssh_pubkey := some "ecdsa-sha2-nistp256 AAAA" }

/-- The default application state: 60-minute tokens, 60-second replay window. -/
def st0 : AppState :=
  { jwt_exp_minutes := 60, pam_service := "flaskapi", max_payload_age_secs := 60 }

/-- An application state configured with a negative replay window. -/
def stNeg : AppState :=
  { jwt_exp_minutes := 60, pam_service := "flaskapi", max_payload_age_secs := -1 }

/-- A payload timestamped one second in the future of the clock below. -/
def payloadFuture : AuthPayload :=
  { username := "alice", password := "pw", ts := 1, ssh_pubkey := none }

/-- A payload sitting exactly on the default replay boundary (age 60). -/
def payloadBoundary : AuthPayload := { payload0 with ts := 40 }

/-- A payload whose password is whitespace only (non-empty, trims to ""). -/
def payloadWsPw : AuthPayload := { payload0 with password := " " }

/-- A request environment in which every stage succeeds and the decrypted
plaintext parses to the given payload. -/
def mkEnv (payload : AuthPayload) : Env :=
  { b64_decode := fun _ => some [0], rsa_decrypt := fun _ => some [1],
    parse_payload := fun _ => some payload, now := 100,
    pam_init_ok := true, pam_auth := fun _ _ => true,
    jwt_encode := fun _ => some "token0", decode_header_ok := true,
    ssh_ca_key_path := "/etc/ssh/ssh_user_ca", ssh_cert_ext_env := "",
    ssh_cert_serial_base := 0, certEnv := certEnvOk }

/-- A leftover file is always the certificate artifact, never the temp key. -/
theorem leftover_eq_cert_path (fsEnv : CertEnv) (ca pr : String) (va vb : Int)
    (pk : String) (exts : List String) (base : Nat) :
    ∀ f ∈ (issue_ssh_user_cert fsEnv ca pr va vb pk exts base).leftover_files,
      f = fsEnv.tmp_name ++ "-cert.pub" := by
  unfold issue_ssh_user_cert
  repeat' split
  all_goals simp

/-- A string never equals itself extended by a nonempty suffix. -/
theorem ne_append_cert_suffix (s : String) : s ≠ s ++ "-cert.pub" := by
  intro h
  have hlen := congrArg String.length h
  rw [String.length_append] at hlen
  have h9 : ("-cert.pub" : String).length = 9 := rfl
  rw [h9] at hlen
  omega

/-! ## C8 -/

/-- C8: whenever `issue_ssh_user_cert` invokes the signer, the serial it
passes equals the configured base plus the random 64-bit value from `OsRng`,
wrapping modulo 2^64; the serial is a function of those two values alone
(there is no shared counter in the state). -/
theorem serial_is_wrapped_random_offset (fsEnv : CertEnv) (ca pr : String)
    (va vb : Int) (pk : String) (exts : List String) (base : Nat)
    (call : SignerCall)
    (h : (issue_ssh_user_cert fsEnv ca pr va vb pk exts base).invoked = some call) :
    call.serial = (base + fsEnv.rnd) % 2 ^ 64 := by
  unfold issue_ssh_user_cert at h
  repeat' split at h
  all_goals simp_all [wrappingAdd64, u64Mod]
  all_goals rw [← h]

/-- The signer invocation made on the all-success run with serial base 3. -/
def sCall0 : SignerCall :=
  { ca_key_path := "/etc/ssh/ssh_user_ca", key_id := "pam-jwt-issuer:alice:100",
    principal := "alice", valid_after := 100, valid_before := 3700,
    serial := 10, extensions := [], pub_path := "/tmp/.tmpAAAA",
    pub_file_content := "ssh-ed25519 AAAA" }

/-- C8 witness: at base 3 and random value 7 the serial is 10. -/
theorem serial_is_wrapped_random_offset_witness :
    sCall0.serial = (3 + certEnvOk.rnd) % 2 ^ 64 :=
  serial_is_wrapped_random_offset certEnvOk "/etc/ssh/ssh_user_ca" "alice"
    100 3700 "ssh-ed25519 AAAA" [] 3 sCall0 (by decide)

/-! ## C3 -/

/-- C3 counterexample: with every external step succeeding, the successful
issuance path leaves the signer-written certificate artifact behind in the
scratch directory — not every file created during issuance is removed. -/
theorem cert_artifact_left_behind :
    (issue_ssh_user_cert certEnvOk "/etc/ssh/ssh_user_ca" "alice" 100 3700
        "ssh-ed25519 AAAA" [] 0).leftover_files ≠ [] := by
  decide

/-- C3 amended: on every exit path of `issue_ssh_user_cert` the temporary
public-key file has been removed (the `NamedTempFile` drop), and any file
still present is the `-cert.pub` certificate artifact the signer wrote —
that artifact is not removed on the success and read-failure paths. -/
theorem tmp_pubkey_always_removed (fsEnv : CertEnv) (ca pr : String)
    (va vb : Int) (pk : String) (exts : List String) (base : Nat) :
    fsEnv.tmp_name ∉
        (issue_ssh_user_cert fsEnv ca pr va vb pk exts base).leftover_files ∧
    ∀ f ∈ (issue_ssh_user_cert fsEnv ca pr va vb pk exts base).leftover_files,
      f = fsEnv.tmp_name ++ "-cert.pub" := by
  refine ⟨?_, leftover_eq_cert_path fsEnv ca pr va vb pk exts base⟩
  intro hmem
  exact ne_append_cert_suffix fsEnv.tmp_name
    (leftover_eq_cert_path fsEnv ca pr va vb pk exts base _ hmem)

/-- C3 amended witness: on the all-success run, the temp key file is gone
and the one leftover file is the certificate artifact. -/
theorem tmp_pubkey_always_removed_witness :
    certEnvOk.tmp_name ∉
        (issue_ssh_user_cert certEnvOk "/etc/ssh/ssh_user_ca" "alice" 100 3700
          "ssh-ed25519 AAAA" [] 0).leftover_files ∧
    "/tmp/.tmpAAAA-cert.pub" = certEnvOk.tmp_name ++ "-cert.pub" :=
  ⟨(tmp_pubkey_always_removed certEnvOk "/etc/ssh/ssh_user_ca" "alice" 100 3700
      "ssh-ed25519 AAAA" [] 0).1,
   (tmp_pubkey_always_removed certEnvOk "/etc/ssh/ssh_user_ca" "alice" 100 3700
      "ssh-ed25519 AAAA" [] 0).2 "/tmp/.tmpAAAA-cert.pub" (by decide)⟩

/-! ## C9 -/

/-- C9: on every 200 response of `/auth/token`, `ssh_user_cert` and
`ssh_user_cert_exp` are either both present or both absent, and a present
`ssh_user_cert_exp` equals the `exp` claim of the minted token. -/
theorem cert_fields_all_or_none (st : AppState) (env : Env) (req : String)
    (t : TokenResponse) :
    (issue_token st env req).response = .ok t →
    (t.ssh_user_cert.isSome = t.ssh_user_cert_exp.isSome ∧
      ∀ ex, t.ssh_user_cert_exp = some ex →
        ∃ cl, (issue_token st env req).minted_claims = some cl ∧ ex = cl.exp) := by
  simp only [issue_token, errResult]
  repeat' split
  all_goals intro h
  all_goals simp_all
  all_goals rw [← h]
  all_goals simp

/-- C9 witness: on an all-success run with an SSH key, both certificate
fields are present and the expiry 3700 matches the minted claim's `exp`. -/
theorem cert_fields_all_or_none_witness :
    tokRespCert.ssh_user_cert.isSome = tokRespCert.ssh_user_cert_exp.isSome ∧
    ∃ cl, (issue_token st0 (mkEnv payloadCert) "x").minted_claims = some cl ∧
      (3700 : Int) = cl.exp :=
  ⟨(cert_fields_all_or_none st0 (mkEnv payloadCert) "x" tokRespCert (by rfl)).1,
   (cert_fields_all_or_none st0 (mkEnv payloadCert) "x" tokRespCert (by rfl)).2
     3700 rfl⟩

/-! ## C5 -/

/-- C5: on every successful request, the minted claims are exactly the fixed
triple (subject field `sun` holding the trimmed username, `iat` = now,
`exp` = now + 60·lifetime-minutes), the access token is the encoder's output
on precisely those claims, and `expires_in` = lifetime-minutes · 60. -/
theorem minted_claims_fixed_shape (st : AppState) (env : Env) (req : String)
    (c p : List Nat) (payload : AuthPayload) (t : TokenResponse)
    (hb : env.b64_decode req = some c)
    (hd : env.rsa_decrypt c = some p)
    (hp : env.parse_payload p = some payload) :
    (issue_token st env req).response = .ok t →
    ((issue_token st env req).minted_claims =
        some { sun := rustTrim payload.username, iat := env.now,
               exp := env.now + 60 * st.jwt_exp_minutes } ∧
      env.jwt_encode { sun := rustTrim payload.username, iat := env.now,
                       exp := env.now + 60 * st.jwt_exp_minutes } =
        some t.access_token ∧
      t.expires_in = st.jwt_exp_minutes * 60) := by
  simp only [issue_token, errResult, hb, hd, hp]
  repeat' split
  all_goals intro h
  all_goals simp_all
  all_goals rw [← h]
  all_goals simp_all

/-- C5 witness: the all-success run mints claims ⟨"alice", 100, 3700⟩ and
returns `expires_in` 3600. -/
theorem minted_claims_fixed_shape_witness :
    (issue_token st0 (mkEnv payload0) "x").minted_claims =
        some { sun := rustTrim payload0.username, iat := (mkEnv payload0).now,
               exp := (mkEnv payload0).now + 60 * st0.jwt_exp_minutes } ∧
      (mkEnv payload0).jwt_encode
          { sun := rustTrim payload0.username, iat := (mkEnv payload0).now,
            exp := (mkEnv payload0).now + 60 * st0.jwt_exp_minutes } =
        some tokResp0.access_token ∧
      tokResp0.expires_in = st0.jwt_exp_minutes * 60 :=
  minted_claims_fixed_shape st0 (mkEnv payload0) "x" [0] [1] payload0 tokResp0
    rfl rfl rfl (by rfl)

/-! ## C6 -/

/-- C6: when the pipeline reaches certificate issuance with a recognized key
prefix and issuance fails with any error, the request still succeeds: the
response is 200, carries the already-minted access token, and omits both
certificate fields. -/
theorem cert_failure_nonfatal (st : AppState) (env : Env) (req : String)
    (c p : List Nat) (payload : AuthPayload) (pk token : String) (e : ApiError)
    (hb : env.b64_decode req = some c)
    (hd : env.rsa_decrypt c = some p)
    (hp : env.parse_payload p = some payload)
    (hu : rustIsEmpty (rustTrim payload.username) = false)
    (hw : rustIsEmpty payload.password = false)
    (hage : ¬ (env.now - payload.ts < 0 ∨ env.now - payload.ts > st.max_payload_age_secs))
    (hpi : env.pam_init_ok = true)
    (hpa : env.pam_auth (rustTrim payload.username) payload.password = true)
    (hje : env.jwt_encode { sun := rustTrim payload.username, iat := env.now,
                            exp := env.now + 60 * st.jwt_exp_minutes } = some token)
    (hdh : env.decode_header_ok = true)
    (hpk : payload.ssh_pubkey = some pk)
    (hlook : (rustStartsWith pk "ssh-ed25519 " || rustStartsWith pk "ssh-rsa "
        || rustStartsWith pk "sk-") = true)
    (hfail : (issue_ssh_user_cert env.certEnv env.ssh_ca_key_path (rustTrim payload.username)
        env.now (env.now + 60 * st.jwt_exp_minutes) pk
        (((rustSplitComma env.ssh_cert_ext_env).map rustTrim).filter
          (fun s => rustIsEmpty s = false))
        env.ssh_cert_serial_base).result = .error e) :
    respond (issue_token st env req).response =
      (200, .okBody { access_token := token, token_type := "Bearer",
                      expires_in := st.jwt_exp_minutes * 60,
                      ssh_user_cert := none, ssh_user_cert_exp := none }) := by
  simp only [issue_token, errResult, hb, hd, hp, hu, hw, hpi, hpa, hje, hdh, hpk, hlook]
  rw [if_neg hage]
  simp only [hfail, Bool.or_self, Bool.false_eq_true, if_false, Bool.true_eq_false, respond]

/-- C6 witness: with temp-file creation failing, the run with an SSH key
still returns 200 with the token and no certificate fields. -/
theorem cert_failure_nonfatal_witness :
    respond (issue_token st0
        { mkEnv payloadCert with certEnv := { certEnvOk with tmp_create_ok := false } }
        "x").response =
      (200, .okBody { access_token := "token0", token_type := "Bearer",
                      expires_in := st0.jwt_exp_minutes * 60,
                      ssh_user_cert := none, ssh_user_cert_exp := none }) :=
  cert_failure_nonfatal st0
    { mkEnv payloadCert with certEnv := { certEnvOk with tmp_create_ok := false } }
    "x" [0] [1] payloadCert "ssh-ed25519 AAAA" "token0" (.Internal "tmpfile")
    rfl rfl rfl (by decide) (by decide) (by decide) rfl rfl rfl rfl rfl (by decide) rfl

/-! ## C7 -/

/-- C7: an `ssh_pubkey` without a recognized OpenSSH type prefix fails the
request with BadRequest 400 before the signer is reached (no invocation, no
file touched); with a recognized prefix the key text is handed to the signer
as-is, with the trimmed username as sole principal. -/
theorem unrecognized_pubkey_rejected (st : AppState) (env : Env) (req : String)
    (c p : List Nat) (payload : AuthPayload) (pk token : String)
    (hb : env.b64_decode req = some c)
    (hd : env.rsa_decrypt c = some p)
    (hp : env.parse_payload p = some payload)
    (hu : rustIsEmpty (rustTrim payload.username) = false)
    (hw : rustIsEmpty payload.password = false)
    (hage : ¬ (env.now - payload.ts < 0 ∨ env.now - payload.ts > st.max_payload_age_secs))
    (hpi : env.pam_init_ok = true)
    (hpa : env.pam_auth (rustTrim payload.username) payload.password = true)
    (hje : env.jwt_encode { sun := rustTrim payload.username, iat := env.now,
                            exp := env.now + 60 * st.jwt_exp_minutes } = some token)
    (hdh : env.decode_header_ok = true)
    (hpk : payload.ssh_pubkey = some pk) :
    ((rustStartsWith pk "ssh-ed25519 " || rustStartsWith pk "ssh-rsa "
        || rustStartsWith pk "sk-") = false →
      respond (issue_token st env req).response = (400, .errBody ⟨"invalid ssh_pubkey"⟩) ∧
      (issue_token st env req).cert_call = none ∧
      (issue_token st env req).leftover_files = []) ∧
    ((rustStartsWith pk "ssh-ed25519 " || rustStartsWith pk "ssh-rsa "
        || rustStartsWith pk "sk-") = true →
      env.certEnv.tmp_create_ok = true → env.certEnv.tmp_write_ok = true →
      ∃ call, (issue_token st env req).cert_call = some call ∧
        call.pub_file_content = pk ∧ call.principal = rustTrim payload.username) := by
  constructor
  · intro hlook
    simp only [issue_token, errResult, hb, hd, hp, hu, hw, hpi, hpa, hje, hdh, hpk, hlook]
    rw [if_neg hage]
    simp [respond, ApiError.into_response]
  · intro hlook hcr hwr
    simp only [issue_token, errResult, hb, hd, hp, hu, hw, hpi, hpa, hje, hdh, hpk, hlook]
    rw [if_neg hage]
    simp only [issue_ssh_user_cert, hcr, hwr, Bool.or_self, Bool.false_eq_true, if_false,
      Bool.true_eq_false]
    repeat' split
    all_goals simp

/-- C7 witness: an `ecdsa-sha2-nistp256` key is rejected with 400 and the
signer is never invoked. -/
theorem unrecognized_pubkey_rejected_witness :
    respond (issue_token st0 (mkEnv payloadBadKey) "x").response =
        (400, .errBody ⟨"invalid ssh_pubkey"⟩) ∧
      (issue_token st0 (mkEnv payloadBadKey) "x").cert_call = none ∧
      (issue_token st0 (mkEnv payloadBadKey) "x").leftover_files = [] :=
  (unrecognized_pubkey_rejected st0 (mkEnv payloadBadKey) "x" [0] [1] payloadBadKey
      "ecdsa-sha2-nistp256 AAAA" "token0"
      rfl rfl rfl (by decide) (by decide) (by decide) rfl rfl rfl rfl rfl).1 (by decide)

/-! ## C4 -/

/-- A request environment whose clock sits one second before the payload
timestamp, so that `now - ts` equals the negative window of `stNeg`. -/
def envNegBound : Env := { mkEnv payloadFuture with now := 0 }

/-- C4 counterexample: with the replay window configured to -1 second, a
payload at the boundary `now - ts = window` is rejected with the stale
BadRequest, contradicting the claim that the boundary case is accepted for
every configured window. -/
theorem replay_boundary_rejected_at_negative_window :
    envNegBound.now - payloadFuture.ts = stNeg.max_payload_age_secs ∧
    respond (issue_token stNeg envNegBound "x").response =
      (400, .errBody ⟨"stale or future timestamp"⟩) := by
  constructor
  · decide
  · rfl

/-- C4 amended: the replay check rejects, with the stale BadRequest and
nothing else, exactly when `now - ts < 0` or `now - ts > window`; for a
nonnegative configured window the boundary `now - ts = window` is accepted,
and `now - ts = window + 1` is always rejected. -/
theorem replay_window_law (st : AppState) (env : Env) (req : String)
    (c p : List Nat) (payload : AuthPayload)
    (hb : env.b64_decode req = some c)
    (hd : env.rsa_decrypt c = some p)
    (hp : env.parse_payload p = some payload)
    (hu : rustIsEmpty (rustTrim payload.username) = false)
    (hw : rustIsEmpty payload.password = false) :
    ((env.now - payload.ts < 0 ∨ env.now - payload.ts > st.max_payload_age_secs) ↔
      respond (issue_token st env req).response =
        (400, .errBody ⟨"stale or future timestamp"⟩)) ∧
    (0 ≤ st.max_payload_age_secs → env.now - payload.ts = st.max_payload_age_secs →
      respond (issue_token st env req).response ≠
        (400, .errBody ⟨"stale or future timestamp"⟩)) ∧
    (env.now - payload.ts = st.max_payload_age_secs + 1 →
      respond (issue_token st env req).response =
        (400, .errBody ⟨"stale or future timestamp"⟩)) := by
  have A : (env.now - payload.ts < 0 ∨ env.now - payload.ts > st.max_payload_age_secs) ↔
      respond (issue_token st env req).response =
        (400, .errBody ⟨"stale or future timestamp"⟩) := by
    by_cases hage : env.now - payload.ts < 0 ∨ env.now - payload.ts > st.max_payload_age_secs
    · refine iff_of_true hage ?_
      simp only [issue_token, errResult, hb, hd, hp, hu, hw]
      rw [if_pos hage]
      rfl
    · refine iff_of_false hage ?_
      simp only [issue_token, errResult, hb, hd, hp, hu, hw]
      rw [if_neg hage]
      repeat' split
      all_goals simp [respond, ApiError.into_response]
  refine ⟨A, ?_, ?_⟩
  · intro h0 hbd hresp
    have := A.mpr hresp
    omega
  · intro hbd
    exact A.mp (by omega)

/-- C4 witness: a payload of age exactly 60 under the default 60-second
window is not rejected as stale. -/
theorem replay_window_law_witness :
    respond (issue_token st0 (mkEnv payloadBoundary) "x").response ≠
      (400, .errBody ⟨"stale or future timestamp"⟩) :=
  (replay_window_law st0 (mkEnv payloadBoundary) "x" [0] [1] payloadBoundary
      rfl rfl rfl (by decide) (by decide)).2.1 (by decide) (by decide)

/-! ## C10 -/

/-- Any signer invocation's principal is the one handed to
`issue_ssh_user_cert`: the `-n` flag is the single permitted login name. -/
theorem invoked_principal_eq (fsEnv : CertEnv) (ca pr : String) (va vb : Int)
    (pk : String) (exts : List String) (base : Nat) (call : SignerCall)
    (h : (issue_ssh_user_cert fsEnv ca pr va vb pk exts base).invoked = some call) :
    call.principal = pr := by
  unfold issue_ssh_user_cert at h
  repeat' split at h
  all_goals simp_all
  all_goals rw [← h]

/-- C10: the principal is the whitespace-trimmed username of the decrypted
payload — it is the `sun` claim of every minted token and the sole permitted
login name of every signer invocation — while the required-fields check
fires exactly when the trimmed username or the *untrimmed* password is
empty. -/
theorem principal_is_trimmed_username (st : AppState) (env : Env) (req : String)
    (c p : List Nat) (payload : AuthPayload)
    (hb : env.b64_decode req = some c)
    (hd : env.rsa_decrypt c = some p)
    (hp : env.parse_payload p = some payload) :
    (∀ cl, (issue_token st env req).minted_claims = some cl →
        cl.sun = rustTrim payload.username) ∧
    (∀ call, (issue_token st env req).cert_call = some call →
        call.principal = rustTrim payload.username) ∧
    ((rustIsEmpty (rustTrim payload.username) || rustIsEmpty payload.password) = true ↔
      respond (issue_token st env req).response =
        (400, .errBody ⟨"username and password are required"⟩)) := by
  refine ⟨?_, ?_, ?_⟩
  · intro cl hcl
    revert hcl
    simp only [issue_token, errResult, hb, hd, hp]
    repeat' split
    all_goals intro hcl
    all_goals simp_all
    all_goals rw [← hcl]
  · intro call hcall
    revert hcall
    simp only [issue_token, errResult, hb, hd, hp]
    repeat' split
    all_goals intro hcall
    all_goals first
      | exact invoked_principal_eq _ _ _ _ _ _ _ _ call hcall
      | simp_all
  · by_cases hreq : (rustIsEmpty (rustTrim payload.username) ||
        rustIsEmpty payload.password) = true
    · refine iff_of_true hreq ?_
      simp only [issue_token, errResult, hb, hd, hp]
      rw [if_pos hreq]
      rfl
    · refine iff_of_false hreq ?_
      simp only [issue_token, errResult, hb, hd, hp]
      rw [if_neg hreq]
      repeat' split
      all_goals simp [respond, ApiError.into_response]

/-- The signer invocation of the all-success run with serial base 0. -/
def sCallC : SignerCall :=
  { ca_key_path := "/etc/ssh/ssh_user_ca", key_id := "pam-jwt-issuer:alice:100",
    principal := "alice", valid_after := 100, valid_before := 3700,
    serial := 7, extensions := [], pub_path := "/tmp/.tmpAAAA",
    pub_file_content := "ssh-ed25519 AAAA" }

/-- C10 witness: the minted claim's subject and the signer principal are the
trimmed `" alice "`, and a whitespace-only (non-empty) password does not
trip the required-fields rejection. -/
theorem principal_is_trimmed_username_witness :
    (Claims.mk "alice" 100 3700).sun = rustTrim payload0.username ∧
    sCallC.principal = rustTrim payloadCert.username ∧
    respond (issue_token st0 (mkEnv payloadWsPw) "x").response ≠
      (400, .errBody ⟨"username and password are required"⟩) :=
  ⟨(principal_is_trimmed_username st0 (mkEnv payload0) "x" [0] [1] payload0
      rfl rfl rfl).1 (Claims.mk "alice" 100 3700) (by decide),
   (principal_is_trimmed_username st0 (mkEnv payloadCert) "x" [0] [1] payloadCert
      rfl rfl rfl).2.1 sCallC (by decide),
   fun hresp => absurd
     ((principal_is_trimmed_username st0 (mkEnv payloadWsPw) "x" [0] [1] payloadWsPw
        rfl rfl rfl).2.2.mpr hresp) (by decide)⟩

/-! ## C1 -/

/-- A request environment whose base64 decoding fails. -/
def envB64Fail : Env := { mkEnv payload0 with b64_decode := fun _ => none }

/-- A request environment whose RSA-OAEP decryption fails. -/
def envDecFail : Env := { mkEnv payload0 with rsa_decrypt := fun _ => none }

/-- C1 counterexample: a base64-decode failure and an RSA-OAEP decryption
failure both yield status 400, but the response bodies differ
(`invalid base64` vs `invalid ciphertext`), so the two failure causes are
distinguishable by body. -/
theorem decode_vs_decrypt_bodies_differ :
    respond (issue_token st0 envB64Fail "x").response =
      (400, .errBody ⟨"invalid base64"⟩) ∧
    respond (issue_token st0 envDecFail "x").response =
      (400, .errBody ⟨"invalid ciphertext"⟩) ∧
    Body.errBody ⟨"invalid base64"⟩ ≠ Body.errBody ⟨"invalid ciphertext"⟩ := by
  refine ⟨rfl, rfl, ?_⟩
  decide

/-- C1 amended: both failure causes map to the BadRequest kind with the same
status 400 (and all decryption failures share one fixed body), but the
base64 branch and the decryption branch carry different fixed bodies. -/
theorem decrypt_failures_same_status (st : AppState) (env : Env) (req : String) :
    (env.b64_decode req = none →
      respond (issue_token st env req).response =
        (400, .errBody ⟨"invalid base64"⟩)) ∧
    (∀ c, env.b64_decode req = some c → env.rsa_decrypt c = none →
      respond (issue_token st env req).response =
        (400, .errBody ⟨"invalid ciphertext"⟩)) := by
  constructor
  · intro h
    simp only [issue_token, errResult, h, respond, ApiError.into_response]
  · intro c hb hd
    simp only [issue_token, errResult, hb, hd, respond, ApiError.into_response]

/-- C1 amended witness: the two failure environments produce their fixed
400 bodies. -/
theorem decrypt_failures_same_status_witness :
    respond (issue_token st0 envB64Fail "x").response =
        (400, .errBody ⟨"invalid base64"⟩) ∧
      respond (issue_token st0 envDecFail "x").response =
        (400, .errBody ⟨"invalid ciphertext"⟩) :=
  ⟨(decrypt_failures_same_status st0 envB64Fail "x").1 rfl,
   (decrypt_failures_same_status st0 envDecFail "x").2 [0] rfl rfl⟩

/-! ## C2 -/

/-- A request environment whose PAM session initialization fails. -/
def envPamInitFail : Env := { mkEnv payload0 with pam_init_ok := false }

/-- A request environment whose PAM authentication rejects the credentials. -/
def envPamAuthFail : Env := { mkEnv payload0 with pam_auth := fun _ _ => false }

/-- C2 counterexample: a failure to initialize the PAM session produces the
Internal outcome (500, `internal error`), not the AuthFailed outcome
(401, `authentication failed`) — the two delegate failures are
distinguishable externally. -/
theorem pam_init_failure_is_internal :
    respond (issue_token st0 envPamInitFail "x").response =
      (500, .errBody ⟨"internal error"⟩) ∧
    ((500 : Nat), Body.errBody ⟨"internal error"⟩) ≠
      (401, Body.errBody ⟨"authentication failed"⟩) := by
  constructor
  · rfl
  · decide

/-- C2 amended: wrong credentials map to AuthFailed (401 with the fixed
generic message); failure to initialize the PAM session maps to Internal
(500, `internal error`). -/
theorem delegate_failure_mapping (st : AppState) (env : Env) (req : String)
    (c p : List Nat) (payload : AuthPayload)
    (hb : env.b64_decode req = some c)
    (hd : env.rsa_decrypt c = some p)
    (hp : env.parse_payload p = some payload)
    (hu : rustIsEmpty (rustTrim payload.username) = false)
    (hw : rustIsEmpty payload.password = false)
    (hage : ¬ (env.now - payload.ts < 0 ∨ env.now - payload.ts > st.max_payload_age_secs)) :
    (env.pam_init_ok = false →
      respond (issue_token st env req).response =
        (500, .errBody ⟨"internal error"⟩)) ∧
    (env.pam_init_ok = true →
      env.pam_auth (rustTrim payload.username) payload.password = false →
      respond (issue_token st env req).response =
        (401, .errBody ⟨"authentication failed"⟩)) := by
  constructor
  · intro h
    simp only [issue_token, errResult, hb, hd, hp, hu, hw, h]
    rw [if_neg hage]
    simp [respond, ApiError.into_response]
  · intro h1 h2
    simp only [issue_token, errResult, hb, hd, hp, hu, hw, h1, h2]
    rw [if_neg hage]
    simp [respond, ApiError.into_response]

/-- C2 amended witness: the init-failure environment yields 500 and the
wrong-credentials environment yields 401. -/
theorem delegate_failure_mapping_witness :
    respond (issue_token st0 envPamInitFail "x").response =
        (500, .errBody ⟨"internal error"⟩) ∧
      respond (issue_token st0 envPamAuthFail "x").response =
        (401, .errBody ⟨"authentication failed"⟩) :=
  ⟨(delegate_failure_mapping st0 envPamInitFail "x" [0] [1] payload0
      rfl rfl rfl (by decide) (by decide) (by decide)).1 rfl,
   (delegate_failure_mapping st0 envPamAuthFail "x" [0] [1] payload0
      rfl rfl rfl (by decide) (by decide) (by decide)).2 rfl rfl⟩

end PamJwtIssuer
